import Mathlib

/-!
Shallow embedding of the Oxxius laser driver (oxxius_laser.py) and proofs
about its transaction engine, command vocabulary and facade methods.

Serial transport is modelled as a scripted port: a list of pending stale
lines already in the input buffer, a script of (bytes, elapsed-seconds)
pairs describing what each successive blocking read returns and how long
it took, a trace of every frame written, and the configured read timeout.
An exhausted script models a device that never replies: the read blocks
for the whole budget and returns zero bytes after timeout + 1 seconds.

Python dynamic-typing failures that the driver can actually hit are made
explicit: PyErr covers the SerialTimeoutException, the ValueError raised
by enum-by-value lookup, the AttributeError raised when a plain str is
passed where a Query enum member is expected, and the TypeError raised
when a float is compared against a reply string.
-/

deriving instance DecidableEq for Except

namespace Oxxius

/-- Settable command mnemonics (class Cmd in the source). -/
inductive Cmd where
  | LaserDriverControlMode
  | ExternalPowerControl
  | LaserEmission
  | LaserCurrent
  | LaserPower
  | FiveSecEmissionDelay
  | FaultCodeReset
  | TemperatureRegulationLoop
  | PercentageSplit
  | DigitalModulation
  deriving DecidableEq, Repr

/-- Wire mnemonic of each command, exactly as in the source. -/
def Cmd.wire : Cmd → String
  | .LaserDriverControlMode => "ACC"
  | .ExternalPowerControl => "AM"
  | .LaserEmission => "L"
  | .LaserCurrent => "CM"
  | .LaserPower => "P"
  | .FiveSecEmissionDelay => "CDRH"
  | .FaultCodeReset => "RST"
  | .TemperatureRegulationLoop => "T"
  | .PercentageSplit => "IPA"
  | .DigitalModulation => "TTL"

/-- Query mnemonics (class Query in the source). -/
inductive Query where
  | DigitalModulation
  | EmmissionKeyStatus
  | LaserType
  | USBConfiguration
  | LaserDriverControlMode
  | FaultCode
  | ExternalPowerControl
  | BasePlateTemperature
  | FiveSecEmissionDelay
  | LaserOperatingHours
  | LaserIdentification
  | LaserEmission
  | LaserPower
  | LaserPowerSetting
  | MaximumLaserPower
  | LaserCurrent
  | LaserCurrentSetting
  | MaximumLaserCurrent
  | InterlockStatus
  | LaserVoltage
  | TemperatureRegulationLoopStatus
  | PercentageSplitStatus
  deriving DecidableEq, Repr

/-- Wire mnemonic of each query, exactly as in the source. -/
def Query.wire : Query → String
  | .DigitalModulation => "?TTL"
  | .EmmissionKeyStatus => "?KEY"
  | .LaserType => "INF?"
  | .USBConfiguration => "?CDC"
  | .LaserDriverControlMode => "?ACC"
  | .FaultCode => "?F"
  | .ExternalPowerControl => "?AM"
  | .BasePlateTemperature => "?BT"
  | .FiveSecEmissionDelay => "?CDRH"
  | .LaserOperatingHours => "?HH"
  | .LaserIdentification => "?HID"
  | .LaserEmission => "?L"
  | .LaserPower => "?P"
  | .LaserPowerSetting => "?SP"
  | .MaximumLaserPower => "?MAXLP"
  | .LaserCurrent => "?C"
  | .LaserCurrentSetting => "?SC"
  | .MaximumLaserCurrent => "?MAXLC"
  | .InterlockStatus => "?INT"
  | .LaserVoltage => "?IV"
  | .TemperatureRegulationLoopStatus => "?T"
  | .PercentageSplitStatus => "?IPA"

/-- FaultCodeField IntEnum of the source, with its integer values. -/
inductive FaultCodeField where
  | NO_ALARM
  | DIODE_CURRENT
  | LASER_POWER
  | POWER_SUPPLY
  | DIODE_TEMPERATURE
  | BASE_TEMPERATURE
  | INTERLOCK
  deriving DecidableEq, Repr

/-- Integer value of each FaultCodeField member (note INTERLOCK = 7). -/
def FaultCodeField.val : FaultCodeField → Nat
  | .NO_ALARM => 0
  | .DIODE_CURRENT => 1
  | .LASER_POWER => 2
  | .POWER_SUPPLY => 3
  | .DIODE_TEMPERATURE => 4
  | .BASE_TEMPERATURE => 5
  | .INTERLOCK => 7

/-- Iteration order of FaultCodeField, as iter(FaultCodeField) yields it. -/
def FaultCodeField.allFields : List FaultCodeField :=
  [.NO_ALARM, .DIODE_CURRENT, .LASER_POWER, .POWER_SUPPLY,
   .DIODE_TEMPERATURE, .BASE_TEMPERATURE, .INTERLOCK]

/-- OxxiusUSBConfiguration IntEnum of the source (values 0 and 1). -/
inductive OxxiusUSBConfiguration where
  | STANDARD_USB
  | VIRTUAL_SERIAL_PORT
  deriving DecidableEq, Repr

/-- BoolVal StrEnum of the source: OFF = "0", ON = "1". -/
inductive BoolVal where
  | OFF
  | ON
  deriving DecidableEq, Repr

/-- Wire encoding of a BoolVal (the value of the StrEnum member). -/
def BoolVal.wire : BoolVal → String
  | .OFF => "0"
  | .ON => "1"

/-- Python exceptions the embedded driver code can raise. -/
inductive PyErr where
  | timeoutErr
  | valueErr (s : String)
  | attributeErr (s : String)
  | typeErr
  deriving DecidableEq, Repr

/-- A Python runtime value as passed to enum-by-value lookup: either an
int or a str.  Needed because IntEnum lookup compares by equality and an
int member value never equals a str. -/
inductive PyVal where
  | int (n : Int)
  | str (s : String)
  deriving DecidableEq, Repr

/-- The text of a PyVal as interpolated into an error message. -/
def PyVal.asText : PyVal → String
  | .int n => toString n
  | .str s => s

/-- OxxiusUSBConfiguration(value): Python Enum lookup by value.  The two
members carry int values 0 and 1; any value not equal (as a Python value)
to one of them raises ValueError. -/
def usbConfigLookup (v : PyVal) : Except PyErr OxxiusUSBConfiguration :=
  if v = PyVal.int 0 then .ok .STANDARD_USB
  else if v = PyVal.int 1 then .ok .VIRTUAL_SERIAL_PORT
  else .error (.valueErr (v.asText ++ " is not a valid OxxiusUSBConfiguration"))

/-- BoolVal(s): StrEnum lookup by value; any payload other than the
member values "0" and "1" raises ValueError. -/
def boolValOf (s : String) : Except PyErr BoolVal :=
  if s = "0" then .ok .OFF
  else if s = "1" then .ok .ON
  else .error (.valueErr s)

/-- Log records emitted through self.log. -/
inductive LogLevel where
  | warn
  | err
  deriving DecidableEq, Repr

/-- A scripted serial port (the transport adapter).  stale holds lines
already sitting in the input buffer (read instantly); script holds the
device replies each subsequent read returns together with the seconds the
read took; written is the trace of outgoing frames; timeout is the
configured read timeout in seconds. -/
structure SerialPort where
  stale : List String
  script : List (String × ℚ)
  written : List String
  timeout : ℚ
  deriving DecidableEq, Repr

/-- ser.write(frame): append the frame to the outgoing trace. -/
def SerialPort.write (p : SerialPort) (frame : String) : SerialPort :=
  { p with written := p.written ++ [frame] }

/-- ser.reset_input_buffer(): discard pending buffered input. -/
def SerialPort.resetInputBuffer (p : SerialPort) : SerialPort :=
  { p with stale := [] }

/-- ser.read_until(REPLY_TERMINATION): return (bytes, elapsed seconds).  Buffered
stale data is returned instantly; otherwise the next scripted reply is
returned; an exhausted script models a device that never replies, so the
read blocks for the whole budget and yields zero bytes after
timeout + 1 seconds. -/
def SerialPort.readUntil (p : SerialPort) : (String × ℚ) × SerialPort :=
  match p.stale with
  | s :: rest => ((s, 0), { p with stale := rest })
  | [] =>
    match p.script with
    | r :: rest => (r, { p with script := rest })
    | [] => (("", p.timeout + 1), p)

/-- reply.rstrip(REPLY_TERMINATION): drop trailing carriage-return and
line-feed characters. -/
def rstripCRLF (s : String) : String :=
  String.mk ((s.toList.reverse.dropWhile (fun c => c = '\r' || c = '\n')).reverse)

/-- A device handle (OxxiusLaser instance): channel prefix (already
including the trailing space added by the constructor, or empty), the
serial port, and the log record trace kept by the subclasses. -/
structure Laser where
  pfx : String
  ser : SerialPort
  log : List (LogLevel × String)
  deriving DecidableEq, Repr

/-- self.log.warning(msg). -/
def Laser.logWarning (l : Laser) (msg : String) : Laser :=
  { l with log := l.log ++ [(.warn, msg)] }

/-- self.log.error(msg). -/
def Laser.logError (l : Laser) (msg : String) : Laser :=
  { l with log := l.log ++ [(.err, msg)] }

/-- OxxiusLaser._send: frame the message with the channel prefix and a
trailing carriage return, write it, read one reply, and raise
SerialTimeoutException when zero bytes arrived, raising is not
suppressed, and the elapsed time exceeds the configured timeout;
otherwise return the reply stripped of the terminator. -/
def Laser.send (l : Laser) (msg : String) (raiseTimeout : Bool) :
    Except PyErr String × Laser :=
  let frame := l.pfx ++ msg ++ "\r"
  let ser1 := l.ser.write frame
  let rd := ser1.readUntil
  let reply := rd.1.1
  let elapsed := rd.1.2
  let l2 : Laser := { l with ser := rd.2 }
  if reply.length = 0 ∧ raiseTimeout = true ∧ elapsed > rd.2.timeout then
    (.error .timeoutErr, l2)
  else
    (.ok (rstripCRLF reply), l2)

/-- The argument get receives at runtime: a Query enum member, or — when
a call site concatenated a member with a channel token — a plain str. -/
inductive GetArg where
  | q (qu : Query)
  | plain (s : String)
  deriving DecidableEq, Repr

/-- OxxiusLaser.get: sends msg.value.  A Query member has the mnemonic as
its value; a plain str has no attribute value, so Python raises
AttributeError before anything reaches the transport. -/
def Laser.get (l : Laser) (msg : GetArg) : Except PyErr String × Laser :=
  match msg with
  | .q qu => l.send qu.wire true
  | .plain _ =>
    (.error (.attributeErr "str object has no attribute value"), l)

/-- OxxiusLaser.set: sends the f-string of mnemonic, space, value. -/
def Laser.set (l : Laser) (msg : String) (value : String) :
    Except PyErr String × Laser :=
  l.send (msg ++ " " ++ value) true

/-- OxxiusLaser.__init__: build the prefix, clear the input buffer and
issue one LaserCurrent query; a SerialTimeoutException (or any other
error) propagates to the caller and construction fails. -/
def Laser.init (pfxOpt : Option String) (ser : SerialPort) :
    Except PyErr Laser :=
  let pfx := match pfxOpt with
    | some p => p ++ " "
    | none => ""
  let l : Laser := { pfx := pfx, ser := ser.resetInputBuffer, log := [] }
  match l.get (.q .LaserCurrent) with
  | (.error e, _) => .error e
  | (.ok _, l2) => .ok l2

/-- Decimal digit value of a character, if it is a digit. -/
def decDigit (c : Char) : Option Nat :=
  if 48 ≤ c.toNat ∧ c.toNat ≤ 57 then some (c.toNat - 48) else none

/-- Accumulate a decimal numeral left to right; none on a non-digit. -/
def decNatAux (cs : List Char) (acc : Nat) : Option Nat :=
  match cs with
  | [] => some acc
  | c :: rest =>
    match decDigit c with
    | none => none
    | some d => decNatAux rest (acc * 10 + d)

/-- int(s) for a stripped reply string: an optional sign followed by at
least one decimal digit; anything else raises ValueError. -/
def pyInt (s : String) : Option Int :=
  match s.toList with
  | [] => none
  | '-' :: rest =>
    if rest = [] then none else (decNatAux rest 0).map (fun n => -(n : Int))
  | '+' :: rest =>
    if rest = [] then none else (decNatAux rest 0).map (fun n => (n : Int))
  | cs => (decNatAux cs 0).map (fun n => (n : Int))

/-- bin(fault_code)[-1]: the last character of the Python binary string
of an int is the low bit of its absolute value (bin(-5) = "-0b101"). -/
def binLastChar (n : Int) : Char :=
  if n.natAbs % 2 = 1 then '1' else '0'

/-- The loop body of the faults property exactly as written: iterate over
the FaultCodeField members after the skipped first one, append the field
when the low bit is set, shift, and — because the return statement is
nested inside the for body — return after the first iteration.  none
models the implicit None returned when the iterator is empty and the
loop body never runs. -/
def faultsWalk (fields : List FaultCodeField) (faultCode : Int)
    (faults : List FaultCodeField) : Option (List FaultCodeField) :=
  match fields with
  | [] => none
  | field :: _rest =>
    let faults1 := if binLastChar faultCode = '1' then faults ++ [field] else faults
    let _faultCode1 := Int.fdiv faultCode 2
    some faults1

/-- Modelled from the spec: the walk the spec describes for the faults
property — examine every remaining FaultCodeField member, appending it
when the current low bit is 1 and right-shifting each iteration, with the
return placed after the loop so the complete list is produced. -/
def faultsWalkAllBits (fields : List FaultCodeField) (faultCode : Int)
    (faults : List FaultCodeField) : List FaultCodeField :=
  match fields with
  | [] => faults
  | field :: rest =>
    faultsWalkAllBits rest (Int.fdiv faultCode 2)
      (if binLastChar faultCode = '1' then faults ++ [field] else faults)

/-- OxxiusLaser.faults: query the fault code, parse it as an int, and run
the bit walk over iter(FaultCodeField) with its first member skipped. -/
def Laser.faults (l : Laser) :
    Except PyErr (Option (List FaultCodeField)) × Laser :=
  match l.get (.q .FaultCode) with
  | (.error e, l1) => (.error e, l1)
  | (.ok s, l1) =>
    match pyInt s with
    | none => (.error (.valueErr s), l1)
    | some fc => (.ok (faultsWalk FaultCodeField.allFields.tail fc []), l1)

/-- max_power property shared by LCX and LBX: a raw MaximumLaserPower
query whose reply stays a string. -/
def Laser.maxPower (l : Laser) : Except PyErr String × Laser :=
  l.get (.q .MaximumLaserPower)

namespace LCX

/-- LCX.power_setpoint setter.  The guard is the chained comparison
0 > value > self.max_power: when 0 > value is false the chain
short-circuits to the else branch and the command is sent; when 0 > value
is true, Python evaluates self.max_power (a wire query returning a str)
and the comparison of a float with a str raises TypeError. -/
def powerSetpointSet (l : Laser) (value : ℚ) : Except PyErr Unit × Laser :=
  if 0 > value then
    match Laser.maxPower l with
    | (.error e, l1) => (.error e, l1)
    | (.ok _, l1) => (.error .typeErr, l1)
  else
    match l.set Cmd.LaserPower.wire (toString value) with
    | (.error e, l1) => (.error e, l1)
    | (.ok _, l1) => (.ok (), l1)

end LCX

namespace LBX

/-- LBX.constant_current getter: LaserDriverControlMode query decoded by
BoolVal enum lookup. -/
def constantCurrent (l : Laser) : Except PyErr BoolVal × Laser :=
  match l.get (.q .LaserDriverControlMode) with
  | (.error e, l1) => (.error e, l1)
  | (.ok s, l1) =>
    match boolValOf s with
    | .error e => (.error e, l1)
    | .ok b => (.ok b, l1)

/-- LBX.power_setpoint setter: same unsatisfiable chained guard as the
LCX one; the else branch first reads constant_current, warns when it is
ON, then sends the LaserPower command. -/
def powerSetpointSet (l : Laser) (value : ℚ) : Except PyErr Unit × Laser :=
  if 0 > value then
    match Laser.maxPower l with
    | (.error e, l1) => (.error e, l1)
    | (.ok _, l1) => (.error .typeErr, l1)
  else
    match constantCurrent l with
    | (.error e, l1) => (.error e, l1)
    | (.ok cc, l1) =>
      let l2 :=
        if cc = BoolVal.ON then
          l1.logWarning
            "Laser is in constant current mode so changing power will not change intensity"
        else l1
      match l2.set Cmd.LaserPower.wire (toString value) with
      | (.error e, l3) => (.error e, l3)
      | (.ok _, l3) => (.ok (), l3)

/-- LBX.digital_modulation setter: read constant_current; when it is OFF
log a warning and send nothing, otherwise send the DigitalModulation
command with the value. -/
def digitalModulationSet (l : Laser) (value : BoolVal) :
    Except PyErr Unit × Laser :=
  match constantCurrent l with
  | (.error e, l1) => (.error e, l1)
  | (.ok cc, l1) =>
    if cc = BoolVal.OFF then
      (.ok (), l1.logWarning
        ("Laser " ++ l1.pfx ++ " is in constant power mode and cannot be put in digital modulation mode"))
    else
      match l1.set Cmd.DigitalModulation.wire value.wire with
      | (.error e, l2) => (.error e, l2)
      | (.ok _, l2) => (.ok (), l2)

/-- LBX.power getter: raw LaserPower query. -/
def power (l : Laser) : Except PyErr String × Laser :=
  l.get (.q .LaserPower)

/-- LBX.current getter, exactly as the source has it: it issues the
LaserPower query, not the LaserCurrent one. -/
def current (l : Laser) : Except PyErr String × Laser :=
  l.get (.q .LaserPower)

end LBX

namespace L6CCCombiner

/-- L6CCCombiner.percentage_split setter: reject values above 100 or
below 0 with a logged error and no transmission, otherwise send the
PercentageSplit command. -/
def percentageSplitSet (l : Laser) (value : ℚ) : Except PyErr Unit × Laser :=
  if value > 100 ∨ value < 0 then
    (.ok (), l.logError ("Impossible to set percentage spilt to " ++ toString value))
  else
    match l.set Cmd.PercentageSplit.wire (toString value) with
    | (.error e, l1) => (.error e, l1)
    | (.ok _, l1) => (.ok (), l1)

/-- L6CCCombiner.port_configuration getter: USBConfiguration query, then
OxxiusUSBConfiguration(reply) — an enum lookup fed the reply str while
the members carry int values. -/
def portConfiguration (l : Laser) :
    Except PyErr OxxiusUSBConfiguration × Laser :=
  match l.get (.q .USBConfiguration) with
  | (.error e, l1) => (.error e, l1)
  | (.ok s, l1) =>
    match usbConfigLookup (PyVal.str s) with
    | .error e => (.error e, l1)
    | .ok c => (.ok c, l1)

/-- L6CCCombiner.digital_modualtion (sic): get(Query.DigitalModulation +
channel token) — the concatenation is a plain str, so get receives a
non-enum argument. -/
def digitalModualtion (l : Laser) (chan : String) :
    Except PyErr BoolVal × Laser :=
  match l.get (.plain (Query.DigitalModulation.wire ++ chan)) with
  | (.error e, l1) => (.error e, l1)
  | (.ok s, l1) =>
    match boolValOf s with
    | .error e => (.error e, l1)
    | .ok b => (.ok b, l1)

end L6CCCombiner

/-! Helper lemmas about the transaction engine. -/

theorem str_append_assoc (a b c : String) : a ++ b ++ c = a ++ (b ++ c) := by
  cases a with
  | mk la =>
    cases b with
    | mk lb =>
      cases c with
      | mk lc => exact congrArg String.mk (List.append_assoc la lb lc)

theorem Laser.send_written (l : Laser) (msg : String) (rt : Bool) :
    ((l.send msg rt).2).ser.written = l.ser.written ++ [l.pfx ++ msg ++ "\r"] := by
  rcases l with ⟨p, ⟨st, sc, w, t⟩, lg⟩
  unfold Laser.send SerialPort.readUntil SerialPort.write
  cases st <;> cases sc <;> dsimp only <;> split <;> rfl

theorem Laser.send_log (l : Laser) (msg : String) (rt : Bool) :
    ((l.send msg rt).2).log = l.log := by
  rcases l with ⟨p, ⟨st, sc, w, t⟩, lg⟩
  unfold Laser.send SerialPort.readUntil SerialPort.write
  cases st <;> cases sc <;> dsimp only <;> split <;> rfl

theorem Laser.set_written (l : Laser) (m v : String) :
    ((l.set m v).2).ser.written = l.ser.written ++ [l.pfx ++ (m ++ " " ++ v) ++ "\r"] :=
  Laser.send_written l (m ++ " " ++ v) true

theorem Laser.set_log (l : Laser) (m v : String) :
    ((l.set m v).2).log = l.log :=
  Laser.send_log l (m ++ " " ++ v) true

/-! Claim theorems. -/

/-- C1: the power_setpoint guard is the chained comparison
0 > value > max_power, which no value satisfies, so the validation the
claim describes never fires: value 200 against a device whose maximum
power is 100 is transmitted as a LaserPower command by both the LCX and
the LBX setter, and no validation error is logged; and a negative value
does not log-and-skip either — it raises TypeError after querying
max_power (a float compared against the reply string), having already
written the MaximumLaserPower query to the wire. -/
theorem C1_power_setpoint_guard_unsatisfiable :
    (LCX.powerSetpointSet ⟨"L1 ", ⟨[], [("100\r\n", 0)], [], 1⟩, []⟩ 200).2.ser.written
      = ["L1 P 200\r"] ∧
    (LCX.powerSetpointSet ⟨"L1 ", ⟨[], [("100\r\n", 0)], [], 1⟩, []⟩ 200).2.log = [] ∧
    (LBX.powerSetpointSet ⟨"L1 ", ⟨[], [("0\r\n", 0), ("100\r\n", 0)], [], 1⟩, []⟩ 200).2.ser.written
      = ["L1 ?ACC\r", "L1 P 200\r"] ∧
    (LBX.powerSetpointSet ⟨"L1 ", ⟨[], [("0\r\n", 0), ("100\r\n", 0)], [], 1⟩, []⟩ 200).2.log = [] ∧
    (LCX.powerSetpointSet ⟨"L1 ", ⟨[], [("100\r\n", 0)], [], 1⟩, []⟩ (-5)).1
      = .error .typeErr ∧
    (LCX.powerSetpointSet ⟨"L1 ", ⟨[], [("100\r\n", 0)], [], 1⟩, []⟩ (-5)).2.ser.written
      = ["L1 ?MAXLP\r"] ∧
    (LCX.powerSetpointSet ⟨"L1 ", ⟨[], [("100\r\n", 0)], [], 1⟩, []⟩ (-5)).2.log = [] := by
  decide

/-- C2: the fault-code walk has its return statement nested inside the
loop body, so it stops after examining only the first field: on fault
code 2 (bit 1 set) the faults property yields the empty list, while the
complete walk the claim describes yields LASER_POWER. -/
theorem C2_fault_walk_truncated :
    (Laser.faults ⟨"", ⟨[], [("2\r\n", 0)], [], 1⟩, []⟩).1 = .ok (some []) ∧
    faultsWalk FaultCodeField.allFields.tail 2 [] = some [] ∧
    faultsWalkAllBits FaultCodeField.allFields.tail 2 [] = [FaultCodeField.LASER_POWER] := by
  decide

/-- C3: when the read returns zero bytes, the elapsed time exceeds the
configured timeout and raising is not suppressed, send fails with the
timeout error; when the read returns zero bytes within the budget, send
returns the empty string without error. -/
theorem C3_send_timeout_policy (p0 msg : String) (w0 : List String)
    (lg : List (LogLevel × String)) (e t : ℚ) (rest : List (String × ℚ)) :
    (e > t →
      (Laser.send ⟨p0, ⟨[], ("", e) :: rest, w0, t⟩, lg⟩ msg true).1
        = .error .timeoutErr) ∧
    (e ≤ t →
      (Laser.send ⟨p0, ⟨[], ("", e) :: rest, w0, t⟩, lg⟩ msg true).1
        = .ok "") := by
  constructor
  · intro h
    simp [Laser.send, SerialPort.readUntil, SerialPort.write, h]
  · intro h
    simp [Laser.send, SerialPort.readUntil, SerialPort.write, not_lt.mpr h,
          show rstripCRLF "" = "" from rfl]

theorem C3_send_timeout_policy_witness :
    (Laser.send ⟨"", ⟨[], [("", 2)], [], 1⟩, []⟩ "?P" true).1 = .error .timeoutErr ∧
    (Laser.send ⟨"", ⟨[], [("", 0)], [], 1⟩, []⟩ "?P" true).1 = .ok "" :=
  ⟨(C3_send_timeout_policy "" "?P" [] [] 2 1 []).1 (by norm_num),
   (C3_send_timeout_policy "" "?P" [] [] 0 1 []).2 (by norm_num)⟩

/-- C4: the per-channel digital-modulation getter concatenates the
DigitalModulation query mnemonic with the channel token, producing a
plain str, and get then evaluates msg.value on it: Python raises
AttributeError before anything is written, so no frame goes out and no
reply is decoded. -/
theorem C4_channel_query_attribute_error :
    (L6CCCombiner.digitalModualtion ⟨"", ⟨[], [("1\r\n", 0)], [], 1⟩, []⟩ "L2").1
      = .error (.attributeErr "str object has no attribute value") ∧
    (L6CCCombiner.digitalModualtion ⟨"", ⟨[], [("1\r\n", 0)], [], 1⟩, []⟩ "L2").2
      = ⟨"", ⟨[], [("1\r\n", 0)], [], 1⟩, []⟩ := by
  decide

/-- C5: constructing a handle clears the input buffer (any stale data is
discarded), writes exactly one LaserCurrent query, and succeeds when the
transport replies 10.0; against a transport that never replies the read
returns zero bytes after the full budget and construction fails with the
timeout error. -/
theorem C5_init_handshake (stale0 : List String) (e t : ℚ) :
    Laser.init none ⟨stale0, [("10.0\r\n", e)], [], t⟩ =
      .ok ⟨"", ⟨[], [], ["?C\r"], t⟩, []⟩ ∧
    Laser.init none ⟨stale0, [], [], t⟩ = .error .timeoutErr := by
  constructor
  · simp [Laser.init, Laser.get, Laser.send, SerialPort.resetInputBuffer,
          SerialPort.readUntil, SerialPort.write, Query.wire,
          show ("10.0\r\n" : String).length = 6 from rfl]
  · simp [Laser.init, Laser.get, Laser.send, SerialPort.resetInputBuffer,
          SerialPort.readUntil, SerialPort.write, Query.wire]

theorem C5_init_handshake_witness :
    Laser.init none ⟨["junk"], [("10.0\r\n", 0)], [], 1⟩ =
      .ok ⟨"", ⟨[], [], ["?C\r"], 1⟩, []⟩ :=
  (C5_init_handshake ["junk"] 0 1).1

/-- C6: the LBX digital_modulation setter first reads the driver control
mode; when the reply decodes to OFF it logs a warning and writes only the
mode query, and when it decodes to ON it writes the mode query followed
by the TTL command carrying the requested value — for every value. -/
theorem C6_digital_modulation_gated (p0 : String) (w0 : List String)
    (lg : List (LogLevel × String)) (e : ℚ) (t : ℚ) (v : BoolVal) :
    ((LBX.digitalModulationSet ⟨p0, ⟨[], [("0\r\n", e), ("\r\n", 0)], w0, t⟩, lg⟩ v).2.ser.written
        = w0 ++ [p0 ++ "?ACC" ++ "\r"] ∧
     (LBX.digitalModulationSet ⟨p0, ⟨[], [("0\r\n", e), ("\r\n", 0)], w0, t⟩, lg⟩ v).2.log
        = lg ++ [(.warn, "Laser " ++ p0 ++ " is in constant power mode and cannot be put in digital modulation mode")]) ∧
    ((LBX.digitalModulationSet ⟨p0, ⟨[], [("1\r\n", e), ("\r\n", 0)], w0, t⟩, lg⟩ v).2.ser.written
        = w0 ++ [p0 ++ "?ACC" ++ "\r", p0 ++ ("TTL" ++ " " ++ v.wire) ++ "\r"] ∧
     (LBX.digitalModulationSet ⟨p0, ⟨[], [("1\r\n", e), ("\r\n", 0)], w0, t⟩, lg⟩ v).2.log = lg) := by
  refine ⟨⟨?_, ?_⟩, ?_, ?_⟩ <;>
    simp [LBX.digitalModulationSet, LBX.constantCurrent, Laser.get, Laser.set, Laser.send,
          SerialPort.readUntil, SerialPort.write, Laser.logWarning, Query.wire, Cmd.wire, boolValOf,
          show rstripCRLF "0\r\n" = "0" from rfl, show rstripCRLF "1\r\n" = "1" from rfl,
          show ("0\r\n":String).length = 3 from rfl, show ("1\r\n":String).length = 3 from rfl,
          show ("\r\n":String).length = 2 from rfl]

theorem C6_digital_modulation_gated_witness :
    (LBX.digitalModulationSet ⟨"L2 ", ⟨[], [("1\r\n", 0), ("\r\n", 0)], [], 1⟩, []⟩ .ON).2.ser.written
      = [] ++ ["L2 " ++ "?ACC" ++ "\r", "L2 " ++ ("TTL" ++ " " ++ BoolVal.ON.wire) ++ "\r"] :=
  (C6_digital_modulation_gated "L2 " [] [] 0 1 .ON).2.1

/-- C7: decoding the wire encoding of each BoolVal returns that value,
and decoding any payload other than 0 and 1 fails with ValueError. -/
theorem C7_boolval_roundtrip :
    (∀ b : BoolVal, boolValOf b.wire = .ok b) ∧
    (∀ s : String, s ≠ "0" → s ≠ "1" → boolValOf s = .error (.valueErr s)) := by
  constructor
  · intro b
    cases b <;> rfl
  · intro s h0 h1
    simp [boolValOf, h0, h1]

theorem C7_boolval_roundtrip_witness :
    boolValOf "2" = .error (.valueErr "2") ∧ boolValOf BoolVal.ON.wire = .ok .ON :=
  ⟨C7_boolval_roundtrip.2 "2" (by decide) (by decide), C7_boolval_roundtrip.1 .ON⟩

/-- C8: the percentage_split setter transmits the PercentageSplit
command with the value for every value between 0 and 100, and for every
value below 0 or above 100 it logs an error and writes nothing. -/
theorem C8_percentage_split_validation (l : Laser) (v : ℚ) :
    (0 ≤ v → v ≤ 100 →
      (L6CCCombiner.percentageSplitSet l v).2.ser.written
        = l.ser.written ++ [l.pfx ++ ("IPA" ++ " " ++ toString v) ++ "\r"] ∧
      (L6CCCombiner.percentageSplitSet l v).2.log = l.log) ∧
    (v < 0 ∨ 100 < v →
      (L6CCCombiner.percentageSplitSet l v).2.ser.written = l.ser.written ∧
      (L6CCCombiner.percentageSplitSet l v).2.log
        = l.log ++ [(.err, "Impossible to set percentage spilt to " ++ toString v)]) := by
  constructor
  · intro h0 h100
    have hcond : ¬ (v > 100 ∨ v < 0) := by
      push_neg
      exact ⟨h100, h0⟩
    rw [L6CCCombiner.percentageSplitSet, if_neg hcond]
    rcases h : Laser.set l Cmd.PercentageSplit.wire (toString v) with ⟨r, l1⟩
    have hw := Laser.set_written l Cmd.PercentageSplit.wire (toString v)
    have hl := Laser.set_log l Cmd.PercentageSplit.wire (toString v)
    rw [h] at hw hl
    cases r <;> simpa [Cmd.wire] using ⟨hw, hl⟩
  · intro h
    have hcond : (v > 100 ∨ v < 0) := h.elim (fun h1 => Or.inr h1) (fun h2 => Or.inl h2)
    rw [L6CCCombiner.percentageSplitSet, if_pos hcond]
    exact ⟨rfl, rfl⟩

theorem C8_percentage_split_validation_witness :
    ((L6CCCombiner.percentageSplitSet ⟨"", ⟨[], [("\r\n", 0)], [], 1⟩, []⟩ 50).2.ser.written
        = [] ++ ["" ++ ("IPA" ++ " " ++ toString (50:ℚ)) ++ "\r"] ∧
     (L6CCCombiner.percentageSplitSet ⟨"", ⟨[], [("\r\n", 0)], [], 1⟩, []⟩ 50).2.log = []) ∧
    ((L6CCCombiner.percentageSplitSet ⟨"", ⟨[], [("\r\n", 0)], [], 1⟩, []⟩ 200).2.ser.written = [] ∧
     (L6CCCombiner.percentageSplitSet ⟨"", ⟨[], [("\r\n", 0)], [], 1⟩, []⟩ 200).2.log
        = [] ++ [(.err, "Impossible to set percentage spilt to " ++ toString (200:ℚ))]) :=
  ⟨(C8_percentage_split_validation ⟨"", ⟨[], [("\r\n", 0)], [], 1⟩, []⟩ 50).1
      (by norm_num) (by norm_num),
   (C8_percentage_split_validation ⟨"", ⟨[], [("\r\n", 0)], [], 1⟩, []⟩ 200).2
      (Or.inr (by norm_num))⟩

/-- C9: the port_configuration getter feeds the reply string into the
OxxiusUSBConfiguration IntEnum lookup whose member values are the ints 0
and 1, so even the valid reply 0 raises ValueError instead of returning
STANDARD_USB; the query itself was transmitted. -/
theorem C9_port_configuration_value_error :
    (L6CCCombiner.portConfiguration ⟨"", ⟨[], [("0\r\n", 0)], [], 1⟩, []⟩).1
      = .error (.valueErr "0 is not a valid OxxiusUSBConfiguration") ∧
    (L6CCCombiner.portConfiguration ⟨"", ⟨[], [("0\r\n", 0)], [], 1⟩, []⟩).2.ser.written
      = ["?CDC\r"] := by
  decide

/-- C10: the LBX current getter is the same operation as the power
getter — it writes the measured-power query frame, whose mnemonic is ?P
and not the measured-current mnemonic ?C — so on identical transports
current and power return identical results. -/
theorem C10_current_is_power_query (l : Laser) :
    LBX.current l = LBX.power l ∧
    (LBX.current l).2.ser.written = l.ser.written ++ [l.pfx ++ "?P" ++ "\r"] ∧
    Query.LaserPower.wire = "?P" ∧ Query.LaserCurrent.wire = "?C" := by
  refine ⟨rfl, ?_, rfl, rfl⟩
  exact Laser.send_written l "?P" true

theorem C10_current_is_power_query_witness :
    LBX.current ⟨"L1 ", ⟨[], [("5.0\r\n", 0)], [], 1⟩, []⟩
      = LBX.power ⟨"L1 ", ⟨[], [("5.0\r\n", 0)], [], 1⟩, []⟩ :=
  (C10_current_is_power_query ⟨"L1 ", ⟨[], [("5.0\r\n", 0)], [], 1⟩, []⟩).1

end Oxxius
